import Mathlib

/-!
Verification of the amortization / cash-flow calculation model of
`src/generate_model.py` (DBFOM wastewater facility valuation).

The source's numeric layer is the function `pmt` together with the
module-level assumptions and derived monthly rates (lines 13-36); the
schedules (City_Receivable, Debt_Schedule, OM, IS_Monthly, CF_Monthly,
BS_Monthly, Levered_DCF_IRR) are written into the workbook as cell
formulas (lines 132-219) following fixed recurrences, which are embedded
here as real-valued functions of the named-range parameters.
-/

/-! ## Assumptions of the fixed scenario (source lines 14-24) -/

def BuildMonths : ℕ := 24

def OpsMonths : ℕ := 240

noncomputable def EPC : ℝ := 62000000

noncomputable def OMBase : ℝ := 325000

noncomputable def Markup : ℝ := 0.10

noncomputable def InflAnnual : ℝ := 0.02

noncomputable def TownEAR : ℝ := 0.0675

noncomputable def DebtEAR : ℝ := 0.04

noncomputable def TaxRate : ℝ := 0.265

noncomputable def DebtFrac : ℝ := 0.60

noncomputable def EquityFrac : ℝ := 0.40

/-! ## Derived monthly rates (source lines 27-29): monthly = (1+EAR)^(1/12) - 1 -/

noncomputable def Town_m : ℝ := (1 + TownEAR) ^ ((1 : ℝ) / 12) - 1

noncomputable def Debt_m : ℝ := (1 + DebtEAR) ^ ((1 : ℝ) / 12) - 1

noncomputable def Infl_m : ℝ := (1 + InflAnnual) ^ ((1 : ℝ) / 12) - 1

/-- Level-payment function, source lines 31-32:
`def pmt(r, n, pv): return r * pv / (1 - (1 + r) ** (-n))`. -/
noncomputable def pmt (r : ℝ) (n : ℕ) (pv : ℝ) : ℝ :=
  r * pv / (1 - (1 + r) ^ (-(n : ℤ)))

/-- Source line 35: `town_payment = pmt(Town_m, OpsMonths, EPC)`. -/
noncomputable def town_payment : ℝ := pmt Town_m OpsMonths EPC

/-- Source line 36: `debt_payment = pmt(Debt_m, OpsMonths, EPC * DebtFrac)`. -/
noncomputable def debt_payment : ℝ := pmt Debt_m OpsMonths (EPC * DebtFrac)

/-- The level payment as the spec words it: "payment = rate × principal /
(1 − (1+rate)^(−periods))" (spec section 4.1). -/
noncomputable def levelPaymentSpec (rate : ℝ) (periods : ℕ) (principal : ℝ) : ℝ :=
  rate * principal / (1 - (1 + rate) ^ (-(periods : ℤ)))

/-- Claim C1: for every rate > 0, periods > 0 and principal, the code's
`pmt` returns exactly rate × principal / (1 − (1+rate)^(−periods)), the
formula the spec states. -/
theorem pmt_matches_spec_formula (r : ℝ) (n : ℕ) (pv : ℝ)
    (hr : 0 < r) (hn : 0 < n) :
    pmt r n pv = r * pv / (1 - (1 + r) ^ (-(n : ℤ))) ∧
      pmt r n pv = levelPaymentSpec r n pv := by
  exact ⟨rfl, rfl⟩

/-- Witness for C1 at rate 1, 1 period, principal 1. -/
theorem pmt_matches_spec_formula_witness :
    (0 : ℝ) < 1 ∧ 0 < 1 ∧
      (pmt 1 1 1 = 1 * 1 / (1 - (1 + 1) ^ (-(1 : ℤ))) ∧
        pmt 1 1 1 = levelPaymentSpec 1 1 1) :=
  ⟨by norm_num, by norm_num, pmt_matches_spec_formula 1 1 1 (by norm_num) (by norm_num)⟩

/-- Claim C5 counterexample: at monthly rate exactly 0 the code's `pmt`
does not fall back to principal/periods: the annuity denominator
1 − (1+0)^(−240) is zero, and (division by zero being absorbed as 0 in
the real-valued model, where Python raises ZeroDivisionError) the result
0 differs from principal/periods = 62000000/240. -/
theorem pmt_zero_rate_no_guard_counterexample :
    (1 - ((1 : ℝ) + 0) ^ (-(240 : ℤ)) = 0) ∧
      pmt 0 240 62000000 = 0 ∧
      pmt 0 240 62000000 ≠ (62000000 : ℝ) / 240 := by
  refine ⟨by norm_num, ?_, ?_⟩
  · simp [pmt]
  · simp [pmt]
    norm_num

/-- Claim C5 amended: `pmt` has no zero-rate guard; for every period
count and principal, at rate 0 the general formula's denominator
1 − (1+0)^(−n) vanishes and the formula is applied unguarded (in Python
this raises ZeroDivisionError; in the real-valued model the division by
zero collapses to 0, never to principal/periods). -/
theorem pmt_zero_rate_no_guard (n : ℕ) (pv : ℝ) :
    (1 - ((1 : ℝ) + 0) ^ (-(n : ℤ)) = 0) ∧ pmt 0 n pv = 0 := by
  constructor
  · norm_num
  · simp [pmt]

/-- Claim C9: for every rate > 0, period count n > 0 and principal P > 0,
pmt(rate, n, P) × n > P: the sum of the level payments strictly exceeds
the bare principal. -/
theorem pmt_total_exceeds_principal (r : ℝ) (n : ℕ) (pv : ℝ)
    (hr : 0 < r) (hn : 0 < n) (hpv : 0 < pv) :
    pv < pmt r n pv * n := by
  have hu1 : (1 : ℝ) < 1 + r := by linarith
  have hu0 : (0 : ℝ) < 1 + r := by linarith
  have hpow1 : (1 : ℝ) < (1 + r) ^ n := one_lt_pow₀ hu1 hn.ne'
  have hpow0 : (0 : ℝ) < (1 + r) ^ n := by positivity
  have hzpow : ((1 : ℝ) + r) ^ (-(n : ℤ)) = ((1 + r) ^ n)⁻¹ := by
    rw [zpow_neg, zpow_natCast]
  have hinvlt : ((1 + r) ^ n)⁻¹ < 1 := inv_lt_one_of_one_lt₀ hpow1
  have hD0 : 0 < 1 - ((1 + r) ^ n)⁻¹ := by linarith
  -- Bernoulli at a = -r/(1+r) gives (1+r)^(-n) ≥ 1 - n*r/(1+r)
  have hbern : 1 + (n : ℝ) * (-(r / (1 + r))) ≤ (1 + -(r / (1 + r))) ^ n := by
    apply one_add_mul_le_pow
    have h1 : r / (1 + r) ≤ 1 := by
      rw [div_le_one hu0]; linarith
    linarith
  have hinv : (1 + -(r / (1 + r))) = ((1 + r))⁻¹ := by
    field_simp
  have hnr0 : 0 < (n : ℝ) * r := by
    have hn0 : (0 : ℝ) < (n : ℝ) := by exact_mod_cast hn
    positivity
  have hstep : 1 - (n : ℝ) * r / (1 + r) ≤ ((1 + r) ^ n)⁻¹ := by
    rw [hinv, inv_pow] at hbern
    calc 1 - (n : ℝ) * r / (1 + r) = 1 + (n : ℝ) * (-(r / (1 + r))) := by ring
      _ ≤ ((1 + r) ^ n)⁻¹ := hbern
  have hfrac : (n : ℝ) * r / (1 + r) < (n : ℝ) * r := div_lt_self hnr0 hu1
  have hD_lt : 1 - ((1 + r) ^ n)⁻¹ < (n : ℝ) * r := by linarith
  have hratio : 1 < (n : ℝ) * r / (1 - ((1 + r) ^ n)⁻¹) := (one_lt_div hD0).mpr hD_lt
  have hmain : pv < pv * ((n : ℝ) * r / (1 - ((1 + r) ^ n)⁻¹)) :=
    (lt_mul_iff_one_lt_right hpv).mpr hratio
  have heq : pmt r n pv * n = pv * ((n : ℝ) * r / (1 - ((1 + r) ^ n)⁻¹)) := by
    simp only [pmt, hzpow]
    ring
  rw [heq]
  exact hmain

/-- Witness for C9 at rate 1, 1 period, principal 1: payment 2 > 1. -/
theorem pmt_total_exceeds_principal_witness :
    (0 : ℝ) < 1 ∧ 0 < 1 ∧ (0 : ℝ) < 1 ∧ (1 : ℝ) < pmt 1 1 1 * (1 : ℕ) :=
  ⟨by norm_num, by norm_num, by norm_num,
    pmt_total_exceeds_principal 1 1 1 (by norm_num) (by norm_num) (by norm_num)⟩

/-- Claim C10: `pmt` is homogeneous in the principal — scaling the
principal by c scales the payment by c — and in particular the source's
`debt_payment` on EPC × DebtFrac equals DebtFrac times the payment on
the full EPC at the debt rate. -/
theorem pmt_homogeneous_in_principal :
    (∀ (r : ℝ) (n : ℕ) (pv c : ℝ), pmt r n (c * pv) = c * pmt r n pv) ∧
      debt_payment = DebtFrac * pmt Debt_m OpsMonths EPC := by
  constructor
  · intro r n pv c
    simp only [pmt]
    ring
  · show pmt Debt_m OpsMonths (EPC * DebtFrac) = DebtFrac * pmt Debt_m OpsMonths EPC
    simp only [pmt]
    ring

/-! ## Amortization schedule (City_Receivable sheet, source lines 136-142;
Debt_Schedule, lines 148-154, is the same recurrence at EPC*DebtFrac and
the debt rate). Row k+1's beginning balance is row k's ending balance;
`schedEnd r pay pv k` is the ending balance after k rows. -/

/-- One row of an amortization sheet: Beg, Payment, Interest (= Beg×rate),
Principal (= Payment−Interest), End (= Beg−Principal). -/
structure SchedRow where
  beg : ℝ
  payment : ℝ
  interest : ℝ
  principal : ℝ
  ending : ℝ

/-- Ending balance after k rows of the recurrence of source lines 138-142:
balance 0 is the principal; each row subtracts (payment − balance×rate). -/
noncomputable def schedEnd (r pay pv : ℝ) : ℕ → ℝ
  | 0 => pv
  | k + 1 => schedEnd r pay pv k - (pay - schedEnd r pay pv k * r)

/-- Row with 0-based index k of an amortization sheet (sheet row k+2). -/
noncomputable def schedRow (r pay pv : ℝ) (k : ℕ) : SchedRow :=
  { beg := schedEnd r pay pv k
    payment := pay
    interest := schedEnd r pay pv k * r
    principal := pay - schedEnd r pay pv k * r
    ending := schedEnd r pay pv k - (pay - schedEnd r pay pv k * r) }

/-- The full n-row amortization schedule with the constant level payment
`pmt r n pv`, as written by the loops of source lines 136-142. -/
noncomputable def buildSchedule (r : ℝ) (n : ℕ) (pv : ℝ) : List SchedRow :=
  (List.range n).map (schedRow r (pmt r n pv) pv)

/-- Closed form of the amortization recurrence. -/
theorem schedEnd_closed (r pay pv : ℝ) (hr : r ≠ 0) (k : ℕ) :
    schedEnd r pay pv k = pv * (1 + r) ^ k - pay * (((1 + r) ^ k - 1) / r) := by
  induction k with
  | zero => simp [schedEnd]
  | succ k ih =>
    show schedEnd r pay pv k - (pay - schedEnd r pay pv k * r) = _
    rw [ih]
    field_simp
    ring

/-- With the level payment `pmt r n pv`, the balance after n rows is
exactly zero. -/
theorem schedEnd_pmt_zero (r pv : ℝ) (n : ℕ) (hr : 0 < r) (hn : 0 < n) :
    schedEnd r (pmt r n pv) pv n = 0 := by
  have hu1 : (1 : ℝ) < 1 + r := by linarith
  have hpow1 : (1 : ℝ) < (1 + r) ^ n := one_lt_pow₀ hu1 hn.ne'
  have hA0 : ((1 : ℝ) + r) ^ n ≠ 0 := by positivity
  have hA1 : ((1 : ℝ) + r) ^ n - 1 ≠ 0 := by linarith
  have hzpow : ((1 : ℝ) + r) ^ (-(n : ℤ)) = ((1 + r) ^ n)⁻¹ := by
    rw [zpow_neg, zpow_natCast]
  have hden : 1 - (((1 : ℝ) + r) ^ n)⁻¹ ≠ 0 := by
    have : (((1 : ℝ) + r) ^ n)⁻¹ < 1 := inv_lt_one_of_one_lt₀ hpow1
    linarith
  rw [schedEnd_closed r _ pv hr.ne' n]
  simp only [pmt, hzpow]
  field_simp
  ring

/-- Claim C2: for every rate > 0, period count > 0 and principal > 0, the
amortization schedule built by the source's recurrence with the constant
level payment produces exactly `periods` rows, and the last row's ending
balance is zero within 1e-6 relative tolerance of the principal (here it
is exactly zero in the real-valued model). -/
theorem amortization_rows_and_final_balance (r pv : ℝ) (n : ℕ)
    (hr : 0 < r) (hn : 0 < n) (hpv : 0 < pv) :
    (buildSchedule r n pv).length = n ∧
      ∃ lastRow, (buildSchedule r n pv).getLast? = some lastRow ∧
        |lastRow.ending| ≤ 1e-6 * pv := by
  constructor
  · simp [buildSchedule]
  · obtain ⟨m, rfl⟩ := Nat.exists_eq_succ_of_ne_zero hn.ne'
    refine ⟨schedRow r (pmt r (m + 1) pv) pv m, ?_, ?_⟩
    · rw [buildSchedule, List.range_succ, List.map_append, List.map_singleton,
        List.getLast?_concat]
    · have hend : (schedRow r (pmt r (m + 1) pv) pv m).ending
          = schedEnd r (pmt r (m + 1) pv) pv (m + 1) := rfl
      rw [hend, schedEnd_pmt_zero r pv (m + 1) hr (Nat.succ_pos m)]
      rw [abs_zero]
      positivity

/-- Witness for C2 at rate 1, 1 period, principal 1. -/
theorem amortization_rows_and_final_balance_witness :
    (0 : ℝ) < 1 ∧ 0 < 1 ∧ (0 : ℝ) < 1 ∧
      ((buildSchedule 1 1 1).length = 1 ∧
        ∃ lastRow, (buildSchedule 1 1 1).getLast? = some lastRow ∧
          |lastRow.ending| ≤ 1e-6 * 1) :=
  ⟨by norm_num, by norm_num, by norm_num,
    amortization_rows_and_final_balance 1 1 1 (by norm_num) (by norm_num) (by norm_num)⟩

/-! ## Named-range parameters and the monthly statement sheets.

The IS_Monthly / CF_Monthly / BS_Monthly sheets (source lines 166-209)
compute every cell from the named ranges of the Inputs sheet; the
embedding below parameterizes the cell formulas over those named ranges.
Months are 1-indexed (sheet row m+1 holds month m). -/

structure Params where
  buildMonths : ℕ
  opsMonths : ℕ
  epc : ℝ
  omBase : ℝ
  markup : ℝ
  taxRate : ℝ
  debtFrac : ℝ
  equityFrac : ℝ
  townM : ℝ
  debtM : ℝ
  inflM : ℝ

/-- City level payment, `=-PMT(Town_m,PaymentMonths,EPC)` (line 139). -/
noncomputable def cityPayment (p : Params) : ℝ := pmt p.townM p.opsMonths p.epc

/-- Debt level payment, `=-PMT(Debt_m,PaymentMonths,EPC*DebtFrac)` (line 151). -/
noncomputable def debtPayment (p : Params) : ℝ :=
  pmt p.debtM p.opsMonths (p.epc * p.debtFrac)

/-- End_Receivable after k rows of City_Receivable (lines 138-142). -/
noncomputable def cityEnd (p : Params) (k : ℕ) : ℝ :=
  schedEnd p.townM (cityPayment p) p.epc k

/-- Beg_Receivable of row k (1-indexed): the prior row's ending balance,
`=IF(ROW()=2,EPC,OFFSET(F1,ROW()-3,0))` (line 138). -/
noncomputable def cityBeg (p : Params) (k : ℕ) : ℝ := cityEnd p (k - 1)

/-- Interest_Revenue of City_Receivable row k, `=B*Town_m` (line 140). -/
noncomputable def cityInterest (p : Params) (k : ℕ) : ℝ := cityBeg p k * p.townM

/-- Principal of City_Receivable row k, `=C-D` (line 141). -/
noncomputable def cityPrincipal (p : Params) (k : ℕ) : ℝ :=
  cityPayment p - cityInterest p k

/-- End_Debt after k rows of Debt_Schedule (lines 150-154). -/
noncomputable def debtEnd (p : Params) (k : ℕ) : ℝ :=
  schedEnd p.debtM (debtPayment p) (p.epc * p.debtFrac) k

/-- Beg_Debt of Debt_Schedule row k (line 150). -/
noncomputable def debtBeg (p : Params) (k : ℕ) : ℝ := debtEnd p (k - 1)

/-- Interest_Expense of Debt_Schedule row k, `=B*Debt_m` (line 152). -/
noncomputable def debtInterest (p : Params) (k : ℕ) : ℝ := debtBeg p k * p.debtM

/-- Principal_Repay of Debt_Schedule row k, `=C-D` (line 153). -/
noncomputable def debtPrincipal (p : Params) (k : ℕ) : ℝ :=
  debtPayment p - debtInterest p k

/-- OM_Cost of OM row k, `=OMBase*(1+Infl_m)^(A-1)` (line 162). -/
noncomputable def omCost (p : Params) (k : ℕ) : ℝ :=
  p.omBase * (1 + p.inflM) ^ (k - 1)

/-- OM_Revenue of OM row k, `=B*(1+Markup)` (line 163). -/
noncomputable def omRevenue (p : Params) (k : ℕ) : ℝ := omCost p k * (1 + p.markup)

/-- OpIndex of month m, `=IF(A>BuildMonths,A-BuildMonths,0)` (line 172). -/
def opIndex (p : Params) (m : ℕ) : ℕ :=
  if m > p.buildMonths then m - p.buildMonths else 0

/-- IS_Monthly Interest_Revenue (line 173). -/
noncomputable def isInterestRev (p : Params) (m : ℕ) : ℝ :=
  if opIndex p m > 0 then cityInterest p (opIndex p m) else 0

/-- IS_Monthly OM_Revenue (line 174). -/
noncomputable def isOMRev (p : Params) (m : ℕ) : ℝ :=
  if opIndex p m > 0 then omRevenue p (opIndex p m) else 0

/-- IS_Monthly Total_Revenue, `=C+D` (line 175). -/
noncomputable def isTotalRev (p : Params) (m : ℕ) : ℝ :=
  isInterestRev p m + isOMRev p m

/-- IS_Monthly OM_Cost (line 176). -/
noncomputable def isOMCost (p : Params) (m : ℕ) : ℝ :=
  if opIndex p m > 0 then omCost p (opIndex p m) else 0

/-- IS_Monthly EBIT, `=E-F` (line 177). -/
noncomputable def isEBIT (p : Params) (m : ℕ) : ℝ := isTotalRev p m - isOMCost p m

/-- IS_Monthly Debt_Interest_Expense (line 178). -/
noncomputable def isDebtInterest (p : Params) (m : ℕ) : ℝ :=
  if opIndex p m > 0 then debtInterest p (opIndex p m) else 0

/-- IS_Monthly EBT, `=G-H` (line 179). -/
noncomputable def isEBT (p : Params) (m : ℕ) : ℝ := isEBIT p m - isDebtInterest p m

/-- IS_Monthly Tax, `=IF(I>0, I*TaxRate, 0)` (line 180). -/
noncomputable def isTax (p : Params) (m : ℕ) : ℝ :=
  if isEBT p m > 0 then isEBT p m * p.taxRate else 0

/-- IS_Monthly Net_Income, `=I-J` (line 181). -/
noncomputable def isNetIncome (p : Params) (m : ℕ) : ℝ := isEBT p m - isTax p m

/-- CF_Monthly CFO: net income plus receivable principal collected (line 189). -/
noncomputable def cfOperating (p : Params) (m : ℕ) : ℝ :=
  isNetIncome p m + (if opIndex p m > 0 then cityPrincipal p (opIndex p m) else 0)

/-- CF_Monthly CFI, `=IF(A=BuildMonths,-EPC,0)` (line 190). -/
noncomputable def cfInvesting (p : Params) (m : ℕ) : ℝ :=
  if m = p.buildMonths then -p.epc else 0

/-- CF_Monthly CFF: debt+equity draw at COD minus debt principal repaid (line 191). -/
noncomputable def cfFinancing (p : Params) (m : ℕ) : ℝ :=
  (if m = p.buildMonths then p.epc * p.debtFrac + p.epc * p.equityFrac else 0)
    - (if opIndex p m > 0 then debtPrincipal p (opIndex p m) else 0)

/-- CF_Monthly Net_Change, `=B+C+D` (line 192). -/
noncomputable def cfNetChange (p : Params) (m : ℕ) : ℝ :=
  cfOperating p m + cfInvesting p m + cfFinancing p m

/-- CF_Monthly Cash_Balance: running sum of net change, seeded at the
first row, `=IF(ROW()=2,E,OFFSET(F1,ROW()-3,0)+E)` (line 193). -/
noncomputable def cashBalance (p : Params) : ℕ → ℝ
  | 0 => 0
  | m + 1 => cashBalance p m + cfNetChange p (m + 1)

/-- BS_Monthly Cash, `=CF_Monthly!F` (line 201). -/
noncomputable def bsCash (p : Params) (m : ℕ) : ℝ := cashBalance p m

/-- BS_Monthly Receivable (line 202). -/
noncomputable def bsReceivable (p : Params) (m : ℕ) : ℝ :=
  if m < p.buildMonths then 0
  else if m = p.buildMonths then p.epc
  else if opIndex p m > 0 then cityEnd p (opIndex p m) else 0

/-- BS_Monthly Total_Assets, `=B+C` (line 203). -/
noncomputable def bsAssets (p : Params) (m : ℕ) : ℝ := bsCash p m + bsReceivable p m

/-- BS_Monthly Debt (line 204). -/
noncomputable def bsDebt (p : Params) (m : ℕ) : ℝ :=
  if m < p.buildMonths then 0
  else if m = p.buildMonths then p.epc * p.debtFrac
  else if opIndex p m > 0 then debtEnd p (opIndex p m) else 0

/-- BS_Monthly Paid_in_Equity, `=IF(A<BuildMonths,0, EPC*EquityFrac)` (line 205). -/
noncomputable def bsPaidInEquity (p : Params) (m : ℕ) : ℝ :=
  if m < p.buildMonths then 0 else p.epc * p.equityFrac

/-- BS_Monthly Retained_Earnings: running sum of net income (line 206). -/
noncomputable def retainedEarnings (p : Params) : ℕ → ℝ
  | 0 => 0
  | m + 1 => retainedEarnings p m + isNetIncome p (m + 1)

/-- BS_Monthly Total_Eq, `=F+G` (line 207). -/
noncomputable def bsTotalEquity (p : Params) (m : ℕ) : ℝ :=
  bsPaidInEquity p m + retainedEarnings p m

/-- BS_Monthly Liab+Eq, `=E+H` (line 208). -/
noncomputable def bsLiabEquity (p : Params) (m : ℕ) : ℝ :=
  bsDebt p m + bsTotalEquity p m

/-- BS_Monthly Balance_Check, `=D-I` (line 209). -/
noncomputable def bsCheck (p : Params) (m : ℕ) : ℝ := bsAssets p m - bsLiabEquity p m

/-! ## Balance-sheet invariant (claim C3) -/

/-- During build months the operating index is zero. -/
theorem opIndex_build (p : Params) (m : ℕ) (hm : m ≤ p.buildMonths) :
    opIndex p m = 0 := by
  simp only [opIndex]
  rw [if_neg]
  omega

/-- Operating months have index month − BuildMonths. -/
theorem opIndex_ops (p : Params) (m : ℕ) (hm : p.buildMonths < m) :
    opIndex p m = m - p.buildMonths := by
  simp only [opIndex]
  rw [if_pos hm]

/-- Net income vanishes during the build period (all revenue and cost
cells are zero there, so EBT = 0 and the tax branch gives 0). -/
theorem isNetIncome_build (p : Params) (m : ℕ) (hm : m ≤ p.buildMonths) :
    isNetIncome p m = 0 := by
  have hop := opIndex_build p m hm
  simp [isNetIncome, isEBT, isEBIT, isTotalRev, isInterestRev, isOMRev,
    isOMCost, isDebtInterest, isTax, hop]

/-- Net cash change vanishes strictly before the COD month. -/
theorem cfNetChange_build (p : Params) (m : ℕ) (hm : m < p.buildMonths) :
    cfNetChange p m = 0 := by
  have hop := opIndex_build p m hm.le
  simp [cfNetChange, cfOperating, cfInvesting, cfFinancing, hop,
    isNetIncome_build p m hm.le, Nat.ne_of_lt hm]

/-- Cash balance is zero strictly before the COD month. -/
theorem cashBalance_build (p : Params) (m : ℕ) (hm : m < p.buildMonths) :
    cashBalance p m = 0 := by
  induction m with
  | zero => rfl
  | succ m ih =>
    show cashBalance p m + cfNetChange p (m + 1) = 0
    rw [ih (by omega), cfNetChange_build p (m + 1) hm]
    ring

/-- Retained earnings are zero through the end of the build period. -/
theorem retainedEarnings_build (p : Params) (m : ℕ) (hm : m ≤ p.buildMonths) :
    retainedEarnings p m = 0 := by
  induction m with
  | zero => rfl
  | succ m ih =>
    show retainedEarnings p m + isNetIncome p (m + 1) = 0
    rw [ih (by omega), isNetIncome_build p (m + 1) hm]
    ring

/-- At the COD month the net cash change is the financing draw minus the
EPC outlay: EPC×(DebtFrac+EquityFrac) − EPC. -/
theorem cfNetChange_cod (p : Params) :
    cfNetChange p p.buildMonths
      = p.epc * (p.debtFrac + p.equityFrac) - p.epc := by
  have hop := opIndex_build p p.buildMonths le_rfl
  simp [cfNetChange, cfOperating, cfInvesting, cfFinancing, hop,
    isNetIncome_build p p.buildMonths le_rfl]
  ring

/-- Cash balance at the COD month. -/
theorem cashBalance_cod (p : Params) (hB : 1 ≤ p.buildMonths) :
    cashBalance p p.buildMonths
      = p.epc * (p.debtFrac + p.equityFrac) - p.epc := by
  obtain ⟨b, hb⟩ := Nat.exists_eq_succ_of_ne_zero (Nat.one_le_iff_ne_zero.mp hB)
  have hb2 : p.buildMonths = b + 1 := hb
  have h1 : cashBalance p (b + 1) = cashBalance p b + cfNetChange p (b + 1) := rfl
  rw [hb2, h1, ← hb2, cfNetChange_cod p, cashBalance_build p b (by omega)]
  ring

/-- Receivable ending-balance chaining: row k+1 retires its principal. -/
theorem cityEnd_succ (p : Params) (k : ℕ) :
    cityEnd p (k + 1) = cityEnd p k - cityPrincipal p (k + 1) := by
  simp [cityEnd, cityPrincipal, cityInterest, cityBeg, cityPayment, schedEnd]

/-- Debt ending-balance chaining: row k+1 retires its principal. -/
theorem debtEnd_succ (p : Params) (k : ℕ) :
    debtEnd p (k + 1) = debtEnd p k - debtPrincipal p (k + 1) := by
  simp [debtEnd, debtPrincipal, debtInterest, debtBeg, debtPayment, schedEnd]

/-- Cash balance in the operating period: the COD residual plus retained
earnings plus cumulative receivable principal collected minus cumulative
debt principal repaid. -/
theorem cashBalance_ops (p : Params) (hB : 1 ≤ p.buildMonths) (k : ℕ) :
    cashBalance p (p.buildMonths + k)
      = (p.epc * (p.debtFrac + p.equityFrac) - p.epc)
        + retainedEarnings p (p.buildMonths + k)
        + (p.epc - cityEnd p k)
        - (p.epc * p.debtFrac - debtEnd p k) := by
  induction k with
  | zero =>
    rw [Nat.add_zero, cashBalance_cod p hB,
      retainedEarnings_build p p.buildMonths le_rfl]
    simp [cityEnd, debtEnd, schedEnd]
  | succ k ih =>
    have hop : opIndex p (p.buildMonths + k + 1) = k + 1 := by
      rw [opIndex_ops p _ (by omega)]
      omega
    have hne : p.buildMonths + k + 1 ≠ p.buildMonths := by omega
    have hre : retainedEarnings p (p.buildMonths + (k + 1))
        = retainedEarnings p (p.buildMonths + k)
          + isNetIncome p (p.buildMonths + k + 1) := by
      rw [show p.buildMonths + (k + 1) = (p.buildMonths + k) + 1 by omega]
      rfl
    have hcash : cashBalance p (p.buildMonths + (k + 1))
        = cashBalance p (p.buildMonths + k)
          + cfNetChange p (p.buildMonths + k + 1) := by
      rw [show p.buildMonths + (k + 1) = (p.buildMonths + k) + 1 by omega]
      rfl
    have hnc : cfNetChange p (p.buildMonths + k + 1)
        = isNetIncome p (p.buildMonths + k + 1)
          + cityPrincipal p (k + 1) - debtPrincipal p (k + 1) := by
      simp [cfNetChange, cfOperating, cfInvesting, cfFinancing, hop, hne]
      ring
    rw [hcash, ih, hnc, hre, cityEnd_succ p k, debtEnd_succ p k]
    ring

/-- Claim C3: for every parameter set with at least one build month and
every month 1 ≤ m ≤ BuildMonths + OpsMonths, the balance-sheet check
value total assets − (liabilities + equity) is exactly zero. -/
theorem balance_check_zero (p : Params) (m : ℕ) (hB : 1 ≤ p.buildMonths)
    (hm : 1 ≤ m) (hm2 : m ≤ p.buildMonths + p.opsMonths) :
    bsCheck p m = 0 := by
  rcases lt_trichotomy m p.buildMonths with hlt | heq | hgt
  · -- build months before COD: every balance-sheet cell is zero
    simp [bsCheck, bsAssets, bsCash, bsReceivable, bsLiabEquity, bsDebt,
      bsTotalEquity, bsPaidInEquity, hlt, cashBalance_build p m hlt,
      retainedEarnings_build p m hlt.le]
  · -- COD month: receivable EPC vs debt + paid-in equity, cash absorbs
    subst heq
    simp only [bsCheck, bsAssets, bsCash, bsReceivable, bsLiabEquity, bsDebt,
      bsTotalEquity, bsPaidInEquity, lt_irrefl, if_neg, if_pos, if_true,
      if_false]
    rw [cashBalance_cod p hB, retainedEarnings_build p p.buildMonths le_rfl]
    ring
  · -- operating months
    obtain ⟨k, hk⟩ : ∃ k, m = p.buildMonths + k := ⟨m - p.buildMonths, by omega⟩
    have hk1 : 1 ≤ k := by omega
    have hop : opIndex p m = k := by
      rw [opIndex_ops p m hgt]
      omega
    have hnlt : ¬ m < p.buildMonths := by omega
    have hne : m ≠ p.buildMonths := by omega
    simp only [bsCheck, bsAssets, bsCash, bsReceivable, bsLiabEquity, bsDebt,
      bsTotalEquity, bsPaidInEquity, hop, hnlt, hne, hk1, if_neg, if_false]
    rw [if_pos (by omega : k > 0), if_pos (by omega : k > 0)]
    rw [hk, cashBalance_ops p hB k]
    ring

/-- Witness for C3: a one-build-month, one-operating-month scenario,
checked at the operating month m = 2. -/
noncomputable def pDemo : Params :=
  { buildMonths := 1
    opsMonths := 1
    epc := 100
    omBase := 5
    markup := 1 / 10
    taxRate := 1 / 4
    debtFrac := 3 / 5
    equityFrac := 2 / 5
    townM := 1 / 10
    debtM := 1 / 10
    inflM := 0 }

/-- Witness for C3 at pDemo, month 2. -/
theorem balance_check_zero_witness :
    1 ≤ pDemo.buildMonths ∧ 1 ≤ 2 ∧ 2 ≤ pDemo.buildMonths + pDemo.opsMonths ∧
      bsCheck pDemo 2 = 0 :=
  ⟨by decide, by decide, by decide,
    balance_check_zero pDemo 2 (by decide) (by decide) (by decide)⟩

/-! ## Parameter validation (claim C6) and tax asymmetry (claim C8) -/

/-- An invalid parameter set: debt fraction + equity fraction = 11/10 ≠ 1. -/
noncomputable def pBad : Params :=
  { buildMonths := 1
    opsMonths := 1
    epc := 100
    omBase := 0
    markup := 0
    taxRate := 0
    debtFrac := 3 / 5
    equityFrac := 1 / 2
    townM := 1 / 10
    debtM := 1 / 10
    inflM := 0 }

/-- Claim C6 counterexample: with debt fraction + equity fraction = 11/10
(≠ 1) the computation surfaces no error of any kind — it silently
produces a definite cash-flow row, with the spurious financing imbalance
EPC×(11/10 − 1) = 10 landing in the COD month's net cash change. -/
theorem no_validation_counterexample :
    pBad.debtFrac + pBad.equityFrac ≠ 1 ∧ cfNetChange pBad 1 = 10 := by
  constructor
  · norm_num [pBad]
  · have hop : opIndex pBad 1 = 0 := opIndex_build pBad 1 le_rfl
    have hni : isNetIncome pBad 1 = 0 := isNetIncome_build pBad 1 le_rfl
    simp only [cfNetChange, cfOperating, cfInvesting, cfFinancing, hop, hni]
    norm_num [pBad]

/-- Claim C6 amended: the code performs no parameter validation and has
no error channel; for every parameter set with invalid capital-structure
fractions (debt + equity ≠ 1) and a positive EPC, the schedules are
still produced, and the net cash change of the COD month is the definite
nonzero garbage value EPC×(debtFrac+equityFrac) − EPC instead of an
InvalidParameters error. -/
theorem no_parameter_validation (p : Params)
    (hsum : p.debtFrac + p.equityFrac ≠ 1) (hepc : 0 < p.epc) :
    cfNetChange p p.buildMonths = p.epc * (p.debtFrac + p.equityFrac) - p.epc ∧
      cfNetChange p p.buildMonths ≠ 0 := by
  have hcod := cfNetChange_cod p
  refine ⟨hcod, ?_⟩
  rw [hcod]
  have hfactor : p.epc * (p.debtFrac + p.equityFrac) - p.epc
      = p.epc * ((p.debtFrac + p.equityFrac) - 1) := by ring
  rw [hfactor]
  exact mul_ne_zero hepc.ne' (sub_ne_zero_of_ne hsum)

/-- Witness for C6 at pBad. -/
theorem no_parameter_validation_witness :
    pBad.debtFrac + pBad.equityFrac ≠ 1 ∧ (0 : ℝ) < pBad.epc ∧
      (cfNetChange pBad pBad.buildMonths
          = pBad.epc * (pBad.debtFrac + pBad.equityFrac) - pBad.epc ∧
        cfNetChange pBad pBad.buildMonths ≠ 0) :=
  ⟨by norm_num [pBad], by norm_num [pBad],
    no_parameter_validation pBad (by norm_num [pBad]) (by norm_num [pBad])⟩

/-- Claim C8: for every month of the income statement, tax equals
EBT × tax rate when EBT > 0 and equals 0 otherwise; with a nonnegative
tax rate the tax is never negative. -/
theorem tax_asymmetry (p : Params) (m : ℕ) :
    (0 < isEBT p m → isTax p m = isEBT p m * p.taxRate) ∧
      (isEBT p m ≤ 0 → isTax p m = 0) ∧
      (0 ≤ p.taxRate → 0 ≤ isTax p m) := by
  refine ⟨?_, ?_, ?_⟩
  · intro h
    rw [isTax, if_pos h]
  · intro h
    rw [isTax, if_neg (not_lt.mpr h)]
  · intro h
    rw [isTax]
    split_ifs with hc
    · exact mul_nonneg hc.le h
    · exact le_rfl
/-- Witness for C8 at pDemo, month 1 (a build month, where EBT = 0, so
the tax must be 0 and is nonnegative). -/
theorem tax_asymmetry_witness :
    isEBT pDemo 1 ≤ 0 ∧ (0 : ℝ) ≤ pDemo.taxRate ∧
      isTax pDemo 1 = 0 ∧ 0 ≤ isTax pDemo 1 := by
  have hebt : isEBT pDemo 1 = 0 := by
    have hop : opIndex pDemo 1 = 0 := opIndex_build pDemo 1 le_rfl
    simp [isEBT, isEBIT, isTotalRev, isInterestRev, isOMRev, isOMCost,
      isDebtInterest, hop]
  refine ⟨le_of_eq hebt, by norm_num [pDemo], ?_, ?_⟩
  · exact (tax_asymmetry pDemo 1).2.1 (le_of_eq hebt)
  · exact (tax_asymmetry pDemo 1).2.2 (by norm_num [pDemo])

/-! ## Concrete scenario numerics (claim C4): the city level payment and
month-1 interest under Town_m = 1.0675^(1/12) − 1, 240 months, EPC
$62,000,000. The 12th root is bracketed by rationals whose 12th powers
bracket 1.0675. -/

/-- The city EAR growth factor is nonnegative. -/
theorem townBase_nonneg : (0 : ℝ) ≤ 1 + TownEAR := by norm_num [TownEAR]

/-- The 12th power of the monthly growth factor recovers 1 + TownEAR. -/
theorem town_growth_pow12 :
    ((1 + TownEAR) ^ ((1 : ℝ) / 12)) ^ (12 : ℕ) = 1 + TownEAR := by
  rw [← Real.rpow_natCast ((1 + TownEAR) ^ ((1 : ℝ) / 12)) 12,
    ← Real.rpow_mul townBase_nonneg]
  norm_num

/-- Rational lower bound on the monthly growth factor. -/
theorem town_growth_lb : (1.0054581304 : ℝ) ≤ (1 + TownEAR) ^ ((1 : ℝ) / 12) := by
  have h12 : (1.0054581304 : ℝ) ^ (12 : ℕ)
      ≤ ((1 + TownEAR) ^ ((1 : ℝ) / 12)) ^ (12 : ℕ) := by
    rw [town_growth_pow12]
    norm_num [TownEAR]
  exact le_of_pow_le_pow_left (by norm_num)
    (Real.rpow_nonneg townBase_nonneg _) h12

/-- Rational upper bound on the monthly growth factor. -/
theorem town_growth_ub : (1 + TownEAR) ^ ((1 : ℝ) / 12) ≤ (1.0054581305 : ℝ) := by
  have h12 : ((1 + TownEAR) ^ ((1 : ℝ) / 12)) ^ (12 : ℕ)
      ≤ (1.0054581305 : ℝ) ^ (12 : ℕ) := by
    rw [town_growth_pow12]
    norm_num [TownEAR]
  exact le_of_pow_le_pow_left (by norm_num) (by norm_num) h12

/-- Rational bracketing of the city monthly rate. -/
theorem Town_m_bounds :
    (0.0054581304 : ℝ) ≤ Town_m ∧ Town_m ≤ (0.0054581305 : ℝ) := by
  have hlb := town_growth_lb
  have hub := town_growth_ub
  constructor
  · simp only [Town_m]
    linarith
  · simp only [Town_m]
    linarith

/-- The 240th power of the monthly growth factor is the 20th power of
the annual factor, making the annuity denominator an exact rational. -/
theorem town_growth_pow240 :
    ((1 + TownEAR) ^ ((1 : ℝ) / 12)) ^ (240 : ℕ) = (1 + TownEAR) ^ (20 : ℕ) := by
  rw [← Real.rpow_natCast ((1 + TownEAR) ^ ((1 : ℝ) / 12)) 240,
    ← Real.rpow_mul townBase_nonneg, ← Real.rpow_natCast (1 + TownEAR) 20]
  norm_num

/-- The city payment with the annuity denominator written as the exact
rational 1 − (1 + TownEAR)^(−20). -/
theorem town_payment_denominator :
    town_payment = Town_m * EPC / (1 - ((1 + TownEAR) ^ (20 : ℕ))⁻¹) := by
  have h1t : 1 + Town_m = (1 + TownEAR) ^ ((1 : ℝ) / 12) := by
    simp [Town_m]
  simp only [town_payment, pmt, OpsMonths]
  rw [h1t, zpow_neg, zpow_natCast, town_growth_pow240]

/-- Claim C4 counterexample: at the fixed scenario the computed level
payment is not within ±$1 of $463,777 (it exceeds $464,073.30), and
month-1 interest EPC × Town_m is not approximately $348,750 (it is below
$338,404.10, more than $10,000 away). -/
theorem town_scenario_spec_values_counterexample :
    1 < |town_payment - 463777| ∧ 10000 < |EPC * Town_m - 348750| := by
  obtain ⟨hlb, hub⟩ := Town_m_bounds
  have hD : (0 : ℝ) < 1 - ((1 + TownEAR) ^ (20 : ℕ))⁻¹ := by
    norm_num [TownEAR]
  constructor
  · rw [town_payment_denominator]
    have hmono : (0.0054581304 : ℝ) * 62000000 / (1 - ((1 + TownEAR) ^ (20 : ℕ))⁻¹)
        ≤ Town_m * EPC / (1 - ((1 + TownEAR) ^ (20 : ℕ))⁻¹) := by
      refine (div_le_div_right hD).mpr ?_
      simp only [EPC]
      nlinarith
    have hkey : (464073.30 : ℝ)
        ≤ (0.0054581304 : ℝ) * 62000000 / (1 - ((1 + TownEAR) ^ (20 : ℕ))⁻¹) := by
      norm_num [TownEAR]
    rw [abs_sub_comm, abs_of_nonpos (by linarith)]
    linarith
  · have hup : EPC * Town_m ≤ 62000000 * (0.0054581305 : ℝ) := by
      simp only [EPC]
      nlinarith
    rw [abs_of_nonpos (by linarith)]
    linarith

/-- Claim C4 amended: at the fixed scenario (EPC $62,000,000, city rate
6.75% EAR converted monthly, 240 periods) the computed level payment is
$464,073.31 within ±$0.01, and month-1 interest EPC × Town_m is
$338,404.09 within ±$0.01. -/
theorem town_scenario_values :
    |town_payment - 464073.31| ≤ 0.01 ∧ |EPC * Town_m - 338404.09| ≤ 0.01 := by
  obtain ⟨hlb, hub⟩ := Town_m_bounds
  have hD : (0 : ℝ) < 1 - ((1 + TownEAR) ^ (20 : ℕ))⁻¹ := by
    norm_num [TownEAR]
  constructor
  · rw [town_payment_denominator]
    have hmono1 : (0.0054581304 : ℝ) * 62000000 / (1 - ((1 + TownEAR) ^ (20 : ℕ))⁻¹)
        ≤ Town_m * EPC / (1 - ((1 + TownEAR) ^ (20 : ℕ))⁻¹) := by
      refine (div_le_div_right hD).mpr ?_
      simp only [EPC]
      nlinarith
    have hmono2 : Town_m * EPC / (1 - ((1 + TownEAR) ^ (20 : ℕ))⁻¹)
        ≤ (0.0054581305 : ℝ) * 62000000 / (1 - ((1 + TownEAR) ^ (20 : ℕ))⁻¹) := by
      refine (div_le_div_right hD).mpr ?_
      simp only [EPC]
      nlinarith
    have hkey1 : (464073.30 : ℝ)
        ≤ (0.0054581304 : ℝ) * 62000000 / (1 - ((1 + TownEAR) ^ (20 : ℕ))⁻¹) := by
      norm_num [TownEAR]
    have hkey2 : (0.0054581305 : ℝ) * 62000000 / (1 - ((1 + TownEAR) ^ (20 : ℕ))⁻¹)
        ≤ (464073.32 : ℝ) := by
      norm_num [TownEAR]
    rw [abs_le]
    constructor
    · linarith
    · linarith
  · have hlow : 62000000 * (0.0054581304 : ℝ) ≤ EPC * Town_m := by
      simp only [EPC]
      nlinarith
    have hup : EPC * Town_m ≤ 62000000 * (0.0054581305 : ℝ) := by
      simp only [EPC]
      nlinarith
    rw [abs_le]
    constructor
    · linarith
    · linarith

/-! ## IRR root-finder (claim C7).

The source computes the levered IRR with the spreadsheet's built-in
solver, `=IRR(B2:B265)` (line 218); no root-finding code exists under
src/. The solver is therefore modelled from the spec below. -/

/-- Modelled from the spec: the error kinds of the IRR root-finder
(`NoConvergence` / `NoSignChange`), which in the source is the
spreadsheet's built-in IRR() (line 218) rather than code under src/. -/
inductive IrrError where
  | noSignChange
  | noConvergence
deriving DecidableEq

/-- Net present value Σ CF_t / (1+r)^t of a cash-flow list, in Horner
form (term t discounted t periods). -/
def npvQ (r : ℚ) : List ℚ → ℚ
  | [] => 0
  | c :: cs => c + npvQ r cs / (1 + r)

/-- Modelled from the spec: the NPV-residual tolerance 1e-7 the spec
prescribes for the (otherwise unspecified) built-in solver. -/
def irrTol : ℚ := 1 / 10000000

/-- Modelled from the spec: bisection step of the IRR root-finder with an
explicit fuel (iteration) budget; exhausting the budget is the spec's
NoConvergence failure. -/
def bisectIrr (cfs : List ℚ) : ℕ → ℚ → ℚ → Except IrrError ℚ
  | 0, _, _ => Except.error IrrError.noConvergence
  | fuel + 1, lo, hi =>
    if |npvQ ((lo + hi) / 2) cfs| ≤ irrTol then Except.ok ((lo + hi) / 2)
    else if npvQ lo cfs * npvQ ((lo + hi) / 2) cfs < 0 then
      bisectIrr cfs fuel lo ((lo + hi) / 2)
    else bisectIrr cfs fuel ((lo + hi) / 2) hi

/-- Modelled from the spec: `compute_irr` — the IRR root-finder the spec
describes for the levered equity cash flows (bisection, 100-iteration
budget); a cash-flow sequence that does not cross zero fails with
NoSignChange before any root search. -/
def computeIrr (cfs : List ℚ) : Except IrrError ℚ :=
  if cfs.all (fun c => decide (0 ≤ c)) || cfs.all (fun c => decide (c ≤ 0)) then
    Except.error IrrError.noSignChange
  else bisectIrr cfs 100 (-(9 / 10)) 10

/-- The Horner NPV equals the spec's Σ CF_t / (1+r)^t. -/
theorem npvQ_eq_sum (r : ℚ) (cfs : List ℚ) :
    npvQ r cfs = ∑ t ∈ Finset.range cfs.length, cfs.getD t 0 / (1 + r) ^ t := by
  induction cfs with
  | nil => simp [npvQ]
  | cons c cs ih =>
    simp only [npvQ, List.length_cons, ih]
    rw [Finset.sum_range_succ']
    simp only [List.getD_cons_succ, List.getD_cons_zero, pow_zero, div_one]
    rw [Finset.sum_div]
    have hterm : ∀ i ∈ Finset.range cs.length,
        cs.getD i 0 / (1 + r) ^ i / (1 + r) = cs.getD i 0 / (1 + r) ^ (i + 1) := by
      intro i _
      rw [div_div, ← pow_succ]
    rw [Finset.sum_congr rfl hterm]
    ring

/-- When bisection returns a rate, the NPV residual at that rate is
within the tolerance. -/
theorem bisectIrr_ok (cfs : List ℚ) (fuel : ℕ) :
    ∀ (lo hi r : ℚ), bisectIrr cfs fuel lo hi = Except.ok r →
      |npvQ r cfs| ≤ irrTol := by
  induction fuel with
  | zero =>
    intro lo hi r h
    exact absurd h (by simp [bisectIrr])
  | succ fuel ih =>
    intro lo hi r h
    rw [bisectIrr] at h
    split_ifs at h with h1 h2
    · simp only [Except.ok.injEq] at h
      rw [← h]
      exact h1
    · exact ih lo ((lo + hi) / 2) r h
    · exact ih ((lo + hi) / 2) hi r h

/-- Claim C7 (root-finder modelled from the spec, as the source relies on
the spreadsheet's built-in IRR): when the cash-flow sequence does not
cross zero — all flows nonnegative or all nonpositive — compute_irr
fails with NoSignChange; and whenever it returns a rate r, that rate
solves Σ CF_t/(1+r)^t = 0 within the documented 1e-7 residual tolerance;
an exhausted iteration budget inside the bisection surfaces as
NoConvergence, the only other outcome. -/
theorem computeIrr_error_handling (cfs : List ℚ) :
    (cfs.all (fun c => decide (0 ≤ c)) = true →
      computeIrr cfs = Except.error IrrError.noSignChange) ∧
      (cfs.all (fun c => decide (c ≤ 0)) = true →
        computeIrr cfs = Except.error IrrError.noSignChange) ∧
      (∀ r : ℚ, computeIrr cfs = Except.ok r →
        |∑ t ∈ Finset.range cfs.length, cfs.getD t 0 / (1 + r) ^ t| ≤ irrTol) := by
  refine ⟨?_, ?_, ?_⟩
  · intro h
    simp [computeIrr, h]
  · intro h
    simp [computeIrr, h]
  · intro r h
    rw [← npvQ_eq_sum]
    rw [computeIrr] at h
    by_cases hc : (cfs.all (fun c => decide (0 ≤ c))
        || cfs.all (fun c => decide (c ≤ 0))) = true
    · rw [if_pos hc] at h
      exact Except.noConfusion h
    · rw [if_neg hc] at h
      exact bisectIrr_ok cfs 100 (-(9 / 10)) 10 r h

/-- Witness for C7: the all-positive sequence [1, 2] has no sign change
and compute_irr rejects it with NoSignChange. -/
theorem computeIrr_error_handling_witness :
    ([(1 : ℚ), 2].all (fun c => decide (0 ≤ c)) = true) ∧
      computeIrr [(1 : ℚ), 2] = Except.error IrrError.noSignChange :=
  ⟨by decide, (computeIrr_error_handling [(1 : ℚ), 2]).1 (by decide)⟩
